import Mathlib

/-!
Verification development for the Home NOC repository.

Part 1 embeds the Target Manager web UI logic
(`core/target-manager/static/app.js`): the ICMP defaults, the effective
per-target configuration shown in the table, the scrape-profile fallback,
the IPv6-literal detection that disables the don't-fragment checkbox, and
the enabled-checkbox toggle handler.

Part 2 models the ICMP prober's Statistics Aggregator. Its code is not in
the repository (only its README, callers and the spec describe it), so the
aggregator definitions are modelled from the spec, as their doc comments
state.
-/

namespace HomeNoc

/-- JavaScript `String.prototype.trim`: strip whitespace from both ends.
Modelled on the string's character list so that it reduces by computation. -/
def jsTrim (s : String) : String :=
  ⟨((s.data.dropWhile Char.isWhitespace).reverse.dropWhile Char.isWhitespace).reverse⟩

/-- JavaScript `String.prototype.includes` for a one-character search string:
membership of that character. -/
def jsIncludes (s : String) (c : Char) : Bool :=
  s.data.contains c

/-- JavaScript `String.prototype.startsWith` for a one-character prefix: the
first character equals it. -/
def jsStartsWith (s : String) (c : Char) : Bool :=
  match s.data with
  | [] => false
  | a :: _ => a == c

/-- A stored target as the UI receives it from `GET /api/targets`
(`core/target-manager/static/app.js`).  Fields that may be absent in the
stored row (`== null` checks in the source) are `Option`s; JSON numbers are
modelled as `ℚ`, so the `Number(...)` coercions of the source are the
identity here. -/
structure TargetItem where
  id : ℕ
  type : String
  name : Option String
  target : String
  enabled : Bool
  scrape_profile : Option String
  icmp_count : Option ℚ
  icmp_interval_ms : Option ℚ
  icmp_timeout_ms : Option ℚ
  icmp_packet_size : Option ℚ
  icmp_df : Option Bool
  deriving DecidableEq

/-- The effective ICMP probe configuration of one target, as rendered by the
UI (`effectiveIcmp` in app.js). -/
structure IcmpConfig where
  count : ℚ
  interval_ms : ℚ
  timeout_ms : ℚ
  packet_size : ℚ
  df : Bool
  deriving DecidableEq

/-- `ICMP_DEFAULTS` from app.js. -/
def ICMP_DEFAULTS : IcmpConfig :=
  { count := 4
    interval_ms := 1000
    timeout_ms := 1000
    packet_size := 56
    df := false }

/-- `SCRAPE_PROFILES` from app.js. -/
def SCRAPE_PROFILES : List String := ["1s", "5s", "15s", "60s"]

/-- `DEFAULT_SCRAPE_PROFILE` from app.js. -/
def DEFAULT_SCRAPE_PROFILE : String := "15s"

/-- `effectiveScrapeProfile` from app.js: stringify the stored profile
(`null` becomes the empty string), trim it, keep it when it is one of the
four known profiles, otherwise fall back to the default. -/
def effectiveScrapeProfile (item : TargetItem) : String :=
  let raw := match item.scrape_profile with
    | none => ""
    | some s => s
  let p := jsTrim raw
  if SCRAPE_PROFILES.contains p then p else DEFAULT_SCRAPE_PROFILE

/-- `effectiveIcmp` from app.js: each `icmp_*` field of the stored target is
used when present and replaced by the corresponding `ICMP_DEFAULTS` entry
when `null`/absent. -/
def effectiveIcmp (item : TargetItem) : IcmpConfig :=
  { count := match item.icmp_count with
      | none => ICMP_DEFAULTS.count
      | some v => v
    interval_ms := match item.icmp_interval_ms with
      | none => ICMP_DEFAULTS.interval_ms
      | some v => v
    timeout_ms := match item.icmp_timeout_ms with
      | none => ICMP_DEFAULTS.timeout_ms
      | some v => v
    packet_size := match item.icmp_packet_size with
      | none => ICMP_DEFAULTS.packet_size
      | some v => v
    df := match item.icmp_df with
      | none => ICMP_DEFAULTS.df
      | some v => v }

/-- The IPv6-literal test of `updateIcmpDfAvailability` in app.js: the input
value is trimmed, then `t.includes(":") || (t.startsWith("[") &&
t.includes("]"))`. -/
def looksLikeIpv6 (value : String) : Bool :=
  let t := jsTrim value
  jsIncludes t ':' || (jsStartsWith t '[' && jsIncludes t ']')

/-- The parts of the add/edit form state that the don't-fragment logic in
app.js touches: the active tab (`currentType`), the target text input, and
the DF checkbox's `checked` and `disabled` properties. -/
structure FormState where
  currentType : String
  targetValue : String
  dfChecked : Bool
  dfDisabled : Bool
  deriving DecidableEq

/-- `updateIcmpDfAvailability` from app.js: a no-op unless the ICMP tab is
active; otherwise `disabled` is set to the IPv6 test's result and, when that
test holds, `checked` is forced to `false`. -/
def updateIcmpDfAvailability (s : FormState) : FormState :=
  if s.currentType ≠ "icmp" then s
  else
    let looks := looksLikeIpv6 s.targetValue
    { s with
      dfDisabled := looks
      dfChecked := if looks then false else s.dfChecked }

/-- The app.js operations that change the target text or load a target into
the form: switching tabs (`setType`), typing in the target input (the
`input` listener), starting an edit (the Edit button handler), cancelling an
edit, and the form reset after a successful submit. -/
inductive FormOp where
  | setType (t : String)
  | inputTarget (v : String)
  | startEdit (item : TargetItem)
  | cancelEdit
  | submitReset

/-- The effect of each form operation on the DF-relevant state, following
app.js.  Every one of these handlers ends by calling
`updateIcmpDfAvailability`.  `setType` clears the target input and resets
the DF checkbox to `ICMP_DEFAULTS.df`; typing replaces the target text;
`startEdit` loads the item's target and, on the ICMP tab, its effective DF
value; cancel and the post-submit reset clear the target input (cancel also
resets the DF checkbox to the default). -/
def applyOp (op : FormOp) (s : FormState) : FormState :=
  match op with
  | .setType t =>
      updateIcmpDfAvailability
        { s with currentType := t, targetValue := "", dfChecked := ICMP_DEFAULTS.df }
  | .inputTarget v =>
      updateIcmpDfAvailability { s with targetValue := v }
  | .startEdit item =>
      updateIcmpDfAvailability
        { s with
          targetValue := item.target
          dfChecked := if item.type = "icmp" then (effectiveIcmp item).df else s.dfChecked }
  | .cancelEdit =>
      updateIcmpDfAvailability
        { s with targetValue := "", dfChecked := ICMP_DEFAULTS.df }
  | .submitReset =>
      updateIcmpDfAvailability { s with targetValue := "" }

/-- The state observable after the enabled-checkbox `change` handler in
`renderRows` (app.js) has run: the server-side `enabled` value, the
checkbox's `checked` property, and whether an error status was shown. -/
structure ToggleOutcome where
  serverEnabled : Bool
  checkboxChecked : Bool
  errorShown : Bool
  deriving DecidableEq

/-- The enabled-checkbox `change` handler of app.js.  `serverEnabled` is the
stored value the row was rendered from, `checked` the checkbox value after
the user's click (the value the handler reads and PATCHes).  When the PATCH
succeeds the server holds `checked` and a successful `refresh` re-renders
the checkbox from the server; if the PATCH (or the refresh) fails, the
`catch` block flips the checkbox back and shows the error status. -/
def toggleChangeHandler (serverEnabled checked patchOk refreshOk : Bool) :
    ToggleOutcome :=
  if patchOk then
    if refreshOk then
      { serverEnabled := checked, checkboxChecked := checked, errorShown := false }
    else
      { serverEnabled := checked, checkboxChecked := !checked, errorShown := true }
  else
    { serverEnabled := serverEnabled, checkboxChecked := !checked, errorShown := true }

/-! ## The ICMP prober's Statistics Aggregator

The prober's source is not part of the repository (`probe/` holds only its
README and deployment files), so the aggregator below is modelled from the
spec, §4.3 and §7(d). -/

/-- Modelled from the spec: one `EchoExchange` outcome as the Statistics
Aggregator sees it — either a reply with its round-trip time in seconds
(`some rtt`) or a timeout/loss/send-failure (`none`).  RTTs are modelled as
rationals.  The prober's own code is missing from the repository. -/
structure EchoExchange where
  rtt_seconds : Option ℚ
  deriving DecidableEq

/-- Modelled from the spec: the RTTs of the successful exchanges, in order. -/
def successfulRtts (outcomes : List EchoExchange) : List ℚ :=
  outcomes.filterMap (fun e => e.rtt_seconds)

/-- Modelled from the spec: the number of lost echoes (no reply recorded). -/
def lostCount (outcomes : List EchoExchange) : ℕ :=
  (outcomes.filter (fun e => e.rtt_seconds.isNone)).length

/-- Modelled from the spec: the average of the successful RTTs, zero-defined
on an empty sample (§7(d): the mean is reported as zero rather than the
computation faulting). -/
def rttMean (rtts : List ℚ) : ℚ :=
  if rtts.length = 0 then 0 else rtts.sum / rtts.length

/-- Modelled from the spec: the population variance of the successful RTTs,
zero-defined when fewer than 2 samples exist (§8: stddev "explicitly defined
(e.g., 0) when fewer than 2 successful replies exist"). -/
def rttVariance (rtts : List ℚ) : ℚ :=
  if rtts.length < 2 then 0
  else ((rtts.map (fun r => (r - rttMean rtts) ^ 2)).sum) / rtts.length

/-- Modelled from the spec: the reported RTT standard deviation, the square
root of the population variance. -/
noncomputable def rttStddev (rtts : List ℚ) : ℝ :=
  Real.sqrt (rttVariance rtts)

/-- Modelled from the spec: the `ProbeResult` of one run (§3) — the fields
the aggregator computes from the ordered outcome list.  The standard
deviation lives in `ℝ` and is kept as the separate function
`aggregateStddev` so that the rational part stays computable. -/
structure ProbeResult where
  success : Bool
  loss_ratio : ℚ
  rtt_mean_seconds : ℚ
  samples : ℕ
  deriving DecidableEq

/-- Modelled from the spec, §4.3: the Statistics Aggregator as a pure
function over the ordered list of per-echo outcomes — `loss_ratio =
lostCount / count`, `success = lostCount < count`, `rtt_mean` the average of
the successful RTTs, `samples` the count attempted. -/
def aggregate (outcomes : List EchoExchange) : ProbeResult :=
  { success := decide (lostCount outcomes < outcomes.length)
    loss_ratio := (lostCount outcomes : ℚ) / (outcomes.length : ℚ)
    rtt_mean_seconds := rttMean (successfulRtts outcomes)
    samples := outcomes.length }

/-- Modelled from the spec, §4.3: the reported `rtt_stddev_seconds`, the
population standard deviation of the successful RTTs. -/
noncomputable def aggregateStddev (outcomes : List EchoExchange) : ℝ :=
  rttStddev (successfulRtts outcomes)

/-! ## Helper lemmas -/

/-- `updateIcmpDfAvailability` never changes the active tab. -/
theorem updateIcmpDf_currentType (s : FormState) :
    (updateIcmpDfAvailability s).currentType = s.currentType := by
  unfold updateIcmpDfAvailability; split <;> rfl

/-- `updateIcmpDfAvailability` never changes the target text. -/
theorem updateIcmpDf_targetValue (s : FormState) :
    (updateIcmpDfAvailability s).targetValue = s.targetValue := by
  unfold updateIcmpDfAvailability; split <;> rfl

/-- On the ICMP tab, when the target looks like an IPv6 literal,
`updateIcmpDfAvailability` unchecks and disables the DF checkbox. -/
theorem updateIcmpDf_ipv6 (s : FormState)
    (hty : s.currentType = "icmp") (hv6 : looksLikeIpv6 s.targetValue = true) :
    (updateIcmpDfAvailability s).dfChecked = false ∧
    (updateIcmpDfAvailability s).dfDisabled = true := by
  unfold updateIcmpDfAvailability
  rw [if_neg (by simp [hty])]
  simp [hv6]

/-- Boolean membership test in the profile list agrees with membership. -/
theorem contains_profiles_iff (p : String) :
    SCRAPE_PROFILES.contains p = true ↔ p ∈ SCRAPE_PROFILES := by
  simp

/-- Every echo outcome is either successful or lost: the number of
successful RTTs plus the lost count is the number of echoes. -/
theorem successfulRtts_length_add_lostCount (outcomes : List EchoExchange) :
    (successfulRtts outcomes).length + lostCount outcomes = outcomes.length := by
  induction outcomes with
  | nil => rfl
  | cons e rest ih =>
      cases h : e.rtt_seconds <;>
        simp [successfulRtts, lostCount, List.filterMap_cons, List.filter_cons, h] at ih ⊢ <;>
        omega

/-! ## The claims -/

/-- C1: after every form operation that can change the target string or load
a target into the form (typing, switching tabs, starting an edit, cancelling
an edit, the post-submit reset), if the ICMP tab is active and the target
string is detected as an IPv6 literal, then the DF checkbox is forced to
`false` (so the value displayed and the value a submit would send are
`false`) and its input is disabled. -/
theorem C1_icmp_ipv6_df_forced_false (op : FormOp) (s : FormState)
    (hty : (applyOp op s).currentType = "icmp")
    (hv6 : looksLikeIpv6 (applyOp op s).targetValue = true) :
    (applyOp op s).dfChecked = false ∧ (applyOp op s).dfDisabled = true := by
  cases op <;>
  · refine updateIcmpDf_ipv6 _ ?_ ?_
    · rw [← updateIcmpDf_currentType]; exact hty
    · rw [← updateIcmpDf_targetValue]; exact hv6

/-- C1, witness: typing an IPv6 address into the target input on the ICMP
tab leaves the DF checkbox unchecked and disabled. -/
theorem C1_icmp_ipv6_df_forced_false_witness :
    (applyOp (FormOp.inputTarget "2001:db8::1") ⟨"icmp", "", false, false⟩).dfChecked = false ∧
    (applyOp (FormOp.inputTarget "2001:db8::1") ⟨"icmp", "", false, false⟩).dfDisabled = true :=
  C1_icmp_ipv6_df_forced_false _ _ (by decide) (by decide)

/-- C2, counterexample: the claim reads the IPv6 test on the raw target
string, but the code trims it first.  The string " [a]" (leading space,
bracket notation) contains no colon and does not start with a bracket, yet
the code classifies it as IPv6 and disables DF. -/
theorem C2_ipv6_classification_counterexample :
    (updateIcmpDfAvailability ⟨"icmp", " [a]", true, false⟩).dfDisabled = true ∧
    looksLikeIpv6 " [a]" = true ∧
    jsIncludes " [a]" ':' = false ∧ jsStartsWith " [a]" '[' = false := by decide

/-- C2 (amended): on the ICMP tab a target string is classified as an IPv6
literal — i.e. the DF input ends up disabled — if and only if the trimmed
target string contains a colon, or starts with a bracket and contains a
closing bracket; for every other string, DF stays enabled and the checkbox
value is left unchanged. -/
theorem C2_ipv6_classification_trimmed (s : FormState) (h : s.currentType = "icmp") :
    ((updateIcmpDfAvailability s).dfDisabled = true ↔
      (jsIncludes (jsTrim s.targetValue) ':' = true ∨
        (jsStartsWith (jsTrim s.targetValue) '[' = true ∧
         jsIncludes (jsTrim s.targetValue) ']' = true))) ∧
    ((updateIcmpDfAvailability s).dfDisabled = false →
      (updateIcmpDfAvailability s).dfChecked = s.dfChecked) := by
  unfold updateIcmpDfAvailability
  rw [if_neg (by simp [h])]
  constructor
  · simp [looksLikeIpv6]
  · intro hfalse
    simp only at hfalse ⊢
    simp [hfalse]

/-- C2, witness: a bracketed IPv6 literal in the target input gets DF
disabled (it contains a colon). -/
theorem C2_ipv6_classification_trimmed_witness :
    (updateIcmpDfAvailability ⟨"icmp", "[2001:db8::1]", false, false⟩).dfDisabled = true :=
  (C2_ipv6_classification_trimmed ⟨"icmp", "[2001:db8::1]", false, false⟩ rfl).1.mpr
    (Or.inl (by decide))

/-- C3: every omitted (`null`/absent) ICMP parameter of a stored target gets
its documented default — count 4, interval 1000 ms, timeout 1000 ms, packet
size 56, df false — and every present parameter is passed through
unchanged. -/
theorem C3_effectiveIcmp_defaults (item : TargetItem) :
    (effectiveIcmp item).count = item.icmp_count.getD 4 ∧
    (effectiveIcmp item).interval_ms = item.icmp_interval_ms.getD 1000 ∧
    (effectiveIcmp item).timeout_ms = item.icmp_timeout_ms.getD 1000 ∧
    (effectiveIcmp item).packet_size = item.icmp_packet_size.getD 56 ∧
    (effectiveIcmp item).df = item.icmp_df.getD false := by
  refine ⟨?_, ?_, ?_, ?_, ?_⟩
  · cases h : item.icmp_count <;> simp [effectiveIcmp, ICMP_DEFAULTS, h]
  · cases h : item.icmp_interval_ms <;> simp [effectiveIcmp, ICMP_DEFAULTS, h]
  · cases h : item.icmp_timeout_ms <;> simp [effectiveIcmp, ICMP_DEFAULTS, h]
  · cases h : item.icmp_packet_size <;> simp [effectiveIcmp, ICMP_DEFAULTS, h]
  · cases h : item.icmp_df <;> simp [effectiveIcmp, ICMP_DEFAULTS, h]

/-- C4: for every outcome list of length `count ≥ 1`, the aggregated loss
ratio equals `(count - successfulReplies) / count` exactly. -/
theorem C4_loss_ratio_formula (outcomes : List EchoExchange)
    (hcount : 1 ≤ outcomes.length) :
    (aggregate outcomes).loss_ratio =
      ((outcomes.length : ℚ) - ((successfulRtts outcomes).length : ℚ)) /
        (outcomes.length : ℚ) := by
  have h := successfulRtts_length_add_lostCount outcomes
  have hc : (lostCount outcomes : ℚ) =
      (outcomes.length : ℚ) - ((successfulRtts outcomes).length : ℚ) := by
    have h2 := congrArg (Nat.cast : ℕ → ℚ) h
    push_cast at h2
    linarith
  simp [aggregate, hc]

/-- C4, witness: one reply out of two echoes gives loss ratio
`(2 - 1) / 2`. -/
theorem C4_loss_ratio_formula_witness :
    (aggregate [⟨some 1⟩, ⟨none⟩]).loss_ratio =
      (((([⟨some 1⟩, ⟨none⟩] : List EchoExchange).length : ℚ)) -
        (((successfulRtts [⟨some 1⟩, ⟨none⟩]).length : ℚ))) /
        ((([⟨some 1⟩, ⟨none⟩] : List EchoExchange).length : ℚ)) :=
  C4_loss_ratio_formula [⟨some 1⟩, ⟨none⟩] (by decide)

/-- C5: for every outcome list of length ≥ 1, the success flag holds iff the
loss ratio is below 1, equivalently iff at least one echo got a reply
(`lostCount < count`). -/
theorem C5_success_iff_loss_ratio_lt_one (outcomes : List EchoExchange)
    (hcount : 1 ≤ outcomes.length) :
    ((aggregate outcomes).success = true ↔ (aggregate outcomes).loss_ratio < 1) ∧
    ((aggregate outcomes).success = true ↔ lostCount outcomes < outcomes.length) := by
  have hpos : (0 : ℚ) < (outcomes.length : ℚ) := by exact_mod_cast hcount
  constructor
  · simp only [aggregate, decide_eq_true_eq]
    rw [div_lt_one hpos]
    exact_mod_cast Iff.rfl
  · simp [aggregate]

/-- C5, witness: the equivalences at a single lost echo. -/
theorem C5_success_iff_loss_ratio_lt_one_witness :
    ((aggregate [⟨none⟩]).success = true ↔ (aggregate [⟨none⟩]).loss_ratio < 1) ∧
    ((aggregate [⟨none⟩]).success = true ↔
      lostCount [⟨none⟩] < ([⟨none⟩] : List EchoExchange).length) :=
  C5_success_iff_loss_ratio_lt_one [⟨none⟩] (by decide)

/-- C6: the reported RTT standard deviation is always ≥ 0; with fewer than 2
successful replies it is the explicitly defined value 0 (not NaN, not an
exception — the model is a total function); and a run of `count = 1` still
yields a defined loss ratio (0 or 1) and a stddev of 0. -/
theorem C6_rtt_stddev_nonneg_zero_defined (outcomes : List EchoExchange) :
    0 ≤ aggregateStddev outcomes ∧
    ((successfulRtts outcomes).length < 2 → aggregateStddev outcomes = 0) ∧
    (outcomes.length = 1 →
      aggregateStddev outcomes = 0 ∧
      ((aggregate outcomes).loss_ratio = 0 ∨ (aggregate outcomes).loss_ratio = 1)) := by
  have hzero : ∀ outs : List EchoExchange,
      (successfulRtts outs).length < 2 → aggregateStddev outs = 0 := by
    intro outs h
    simp [aggregateStddev, rttStddev, rttVariance, if_pos h]
  refine ⟨Real.sqrt_nonneg _, hzero outcomes, ?_⟩
  intro h1
  have hadd := successfulRtts_length_add_lostCount outcomes
  refine ⟨hzero outcomes (by omega), ?_⟩
  rcases (by omega : lostCount outcomes = 0 ∨ lostCount outcomes = 1) with h | h <;>
    simp [aggregate, h, h1]

/-- C6, witness: one successful echo gives a nonnegative stddev equal to
0. -/
theorem C6_rtt_stddev_nonneg_zero_defined_witness :
    0 ≤ aggregateStddev [⟨some 1⟩] ∧ aggregateStddev [⟨some 1⟩] = 0 :=
  ⟨(C6_rtt_stddev_nonneg_zero_defined [⟨some 1⟩]).1,
    ((C6_rtt_stddev_nonneg_zero_defined [⟨some 1⟩]).2.2 (by decide)).1⟩

/-- C7: a validated run with zero successful replies still produces a result
document: success is `false`, the loss ratio is exactly 1, and the RTT mean
and stddev are the zero-defined values rather than a fault. -/
theorem C7_zero_replies_result (outcomes : List EchoExchange)
    (hcount : 1 ≤ outcomes.length) (hnone : successfulRtts outcomes = []) :
    (aggregate outcomes).success = false ∧
    (aggregate outcomes).loss_ratio = 1 ∧
    (aggregate outcomes).rtt_mean_seconds = 0 ∧
    aggregateStddev outcomes = 0 := by
  have hadd := successfulRtts_length_add_lostCount outcomes
  rw [hnone] at hadd
  simp at hadd
  have hne : (outcomes.length : ℚ) ≠ 0 := Nat.cast_ne_zero.mpr (by omega)
  refine ⟨?_, ?_, ?_, ?_⟩
  · simp [aggregate, hadd]
  · simp [aggregate, hadd, div_self hne]
  · simp [aggregate, rttMean, hnone]
  · simp [aggregateStddev, rttStddev, rttVariance, hnone]

/-- C7, witness: a single lost echo yields the 100%-loss result document. -/
theorem C7_zero_replies_result_witness :
    (aggregate [⟨none⟩]).success = false ∧ (aggregate [⟨none⟩]).loss_ratio = 1 ∧
    (aggregate [⟨none⟩]).rtt_mean_seconds = 0 ∧ aggregateStddev [⟨none⟩] = 0 :=
  C7_zero_replies_result [⟨none⟩] (by decide) (by decide)

/-- C8: the aggregator is a pure, deterministic function of the ordered
outcome list: equal inputs give equal `ProbeResult`s and equal stddevs (in
this embedding it is a function, with no effects by construction). -/
theorem C8_aggregate_deterministic (xs ys : List EchoExchange) (h : xs = ys) :
    aggregate xs = aggregate ys ∧ aggregateStddev xs = aggregateStddev ys := by
  subst h; exact ⟨rfl, rfl⟩

/-- C8, witness: determinism at a concrete outcome list. -/
theorem C8_aggregate_deterministic_witness :
    aggregate [⟨some 2⟩, ⟨none⟩] = aggregate [⟨some 2⟩, ⟨none⟩] ∧
    aggregateStddev [⟨some 2⟩, ⟨none⟩] = aggregateStddev [⟨some 2⟩, ⟨none⟩] :=
  C8_aggregate_deterministic [⟨some 2⟩, ⟨none⟩] [⟨some 2⟩, ⟨none⟩] rfl

/-- C9: the effective scrape profile of every stored target is one of
"1s", "5s", "15s", "60s", and it equals the stored profile (trimmed, `null`
read as empty) when that is one of the four, else the default "15s". -/
theorem C9_scrape_profile_fallback (item : TargetItem) :
    effectiveScrapeProfile item ∈ SCRAPE_PROFILES ∧
    effectiveScrapeProfile item =
      (if jsTrim (item.scrape_profile.getD "") ∈ SCRAPE_PROFILES
       then jsTrim (item.scrape_profile.getD "")
       else DEFAULT_SCRAPE_PROFILE) := by
  have hmatch : (match item.scrape_profile with | none => "" | some s => s) =
      item.scrape_profile.getD "" := by
    cases item.scrape_profile <;> rfl
  unfold effectiveScrapeProfile
  rw [hmatch]
  by_cases hmem : jsTrim (item.scrape_profile.getD "") ∈ SCRAPE_PROFILES
  · rw [if_pos ((contains_profiles_iff _).mpr hmem), if_pos hmem]
    exact ⟨hmem, rfl⟩
  · rw [if_neg (fun hc => hmem ((contains_profiles_iff _).mp hc)), if_neg hmem]
    exact ⟨by simp [DEFAULT_SCRAPE_PROFILE, SCRAPE_PROFILES], rfl⟩

/-- C10: when the enabled-checkbox toggle's PATCH fails, the handler reverts
the checkbox to its pre-click value (the last successfully saved state) and
shows an error, so the displayed state matches the saved state and the
divergence is never silent.  The hypothesis states that the click flipped
the checkbox away from the rendered saved value. -/
theorem C10_toggle_revert_on_patch_failure (serverEnabled checked refreshOk : Bool)
    (hchange : checked = !serverEnabled) :
    (toggleChangeHandler serverEnabled checked false refreshOk).checkboxChecked = serverEnabled ∧
    (toggleChangeHandler serverEnabled checked false refreshOk).errorShown = true ∧
    (toggleChangeHandler serverEnabled checked false refreshOk).serverEnabled = serverEnabled ∧
    (toggleChangeHandler serverEnabled checked false refreshOk).checkboxChecked =
      (toggleChangeHandler serverEnabled checked false refreshOk).serverEnabled := by
  subst hchange
  cases serverEnabled <;> simp [toggleChangeHandler]

/-- C10, witness: unchecking an enabled target whose PATCH fails restores
the checked box and shows the error. -/
theorem C10_toggle_revert_on_patch_failure_witness :
    (toggleChangeHandler true false false true).checkboxChecked = true ∧
    (toggleChangeHandler true false false true).errorShown = true ∧
    (toggleChangeHandler true false false true).serverEnabled = true ∧
    (toggleChangeHandler true false false true).checkboxChecked =
      (toggleChangeHandler true false false true).serverEnabled :=
  C10_toggle_revert_on_patch_failure true false true (by decide)

end HomeNoc
